import Mathlib

/-!
Verification of the topology compatibility rule engine
(src/ui/src/helpers/topologyHelper.ts, getCompatibleNextNodeTypes) and the
lab requirement checker (LabPanel.checkLabCompletion) of the q-sim
repository, as a shallow embedding in Lean 4.
-/

set_option maxHeartbeats 1000000

namespace QSim

/-- Node kinds. Modelled from the spec: the node type registry
(SimulationNodeType, declared in the enums module that is outside the
provided sources); the constructor set follows the registry listed in the
data model, and the five governed types are exactly the ones the
compatibility engine in topologyHelper.ts switches on. -/
inductive SimulationNodeType where
  | CLASSICAL_HOST
  | CLASSICAL_ROUTER
  | QUANTUM_HOST
  | QUANTUM_ADAPTER
  | QUANTUM_REPEATER
  | INTERNET_EXCHANGE
  | CLASSICAL_NETWORK
  | QUANTUM_NETWORK
  | ZONE
  | C2Q_CONVERTER
  | Q2C_CONVERTER
deriving DecidableEq, Repr, Fintype

open SimulationNodeType

/-- A simulator node: an identity plus its node type (SimulatorNode).
Reference equality of the TS objects is modelled by structural equality
on the id/type pair. -/
structure SimulatorNode where
  id : Nat
  nodeType : SimulationNodeType
deriving DecidableEq, Repr

/-- Connection metadata: a from endpoint (always present) and an optional
to endpoint, as in the TS connection objects where metaData.to may be
undefined. -/
structure ConnectionMeta where
  fromNode : SimulatorNode
  toNode : Option SimulatorNode
deriving DecidableEq, Repr

/-- A connection, wrapping its metadata as the TS objects do. -/
structure Connection where
  metaData : ConnectionMeta
deriving DecidableEq, Repr

/-- Neighbors contributed by one connection, in the push order of the TS
loop body: to is pushed when from matches the node and to is present;
from is pushed when to matches the node. -/
def connNeighbors (node : SimulatorNode) (c : Connection) : List SimulatorNode :=
  (match c.metaData.toNode with
   | some t => if c.metaData.fromNode = node then [t] else []
   | none => []) ++
  (match c.metaData.toNode with
   | some t => if t = node then [c.metaData.fromNode] else []
   | none => [])

/-- getNeighbors of topologyHelper.ts: walk all connections and collect
the opposite endpoints of those touching the node. -/
def getNeighbors (node : SimulatorNode) : List Connection → List SimulatorNode
  | [] => []
  | c :: rest => connNeighbors node c ++ getNeighbors node rest

/-- isClassicalType of topologyHelper.ts. -/
def isClassicalType (t : SimulationNodeType) : Bool :=
  t == CLASSICAL_HOST || t == CLASSICAL_ROUTER

/-- isQuantumLinkType of topologyHelper.ts. -/
def isQuantumLinkType (t : SimulationNodeType) : Bool :=
  t == QUANTUM_HOST || t == QUANTUM_REPEATER

/-- getCompatibleNextNodeTypes of topologyHelper.ts: the node types that
may legally be connected next to the given node, from its type and the
types of its current neighbors. -/
def getCompatibleNextNodeTypes (node : SimulatorNode)
    (connections : List Connection) : List SimulationNodeType :=
  let neighbors := getNeighbors node connections
  let degree := neighbors.length
  let neighborTypes := neighbors.map (·.nodeType)
  match node.nodeType with
  | CLASSICAL_HOST | CLASSICAL_ROUTER =>
      [CLASSICAL_HOST, CLASSICAL_ROUTER, QUANTUM_ADAPTER]
  | QUANTUM_ADAPTER =>
      if degree ≥ 2 then [] else
      let hasClassical := neighborTypes.any isClassicalType
      let hasQuantum := neighborTypes.contains QUANTUM_HOST
      if hasClassical && !hasQuantum then [QUANTUM_HOST]
      else if hasQuantum && !hasClassical then [CLASSICAL_HOST, CLASSICAL_ROUTER]
      else [CLASSICAL_HOST, CLASSICAL_ROUTER, QUANTUM_HOST]
  | QUANTUM_HOST =>
      if degree ≥ 2 then [] else
      let hasAdapter := neighborTypes.contains QUANTUM_ADAPTER
      let hasQuantumLink := neighborTypes.any isQuantumLinkType
      if hasAdapter && !hasQuantumLink then [QUANTUM_HOST, QUANTUM_REPEATER]
      else if hasQuantumLink && !hasAdapter then [QUANTUM_ADAPTER]
      else [QUANTUM_ADAPTER, QUANTUM_HOST, QUANTUM_REPEATER]
  | QUANTUM_REPEATER =>
      if degree ≥ 2 then [] else [QUANTUM_HOST, QUANTUM_REPEATER]
  | _ => []

/-- Lab requirement set, as read by checkLabCompletion: a node-type
multiset, connection type pairs, and an optional minimum message count
(the TS field messages?: number; JS truthiness makes an absent or zero
value count as not required). -/
structure LabRequirements where
  nodes : List SimulationNodeType
  connections : List (SimulationNodeType × SimulationNodeType)
  messages : Option Nat
deriving DecidableEq, Repr

/-- A lab exercise entry as far as the checker reads it: its id and its
requirements. -/
structure Lab where
  id : String
  requirements : LabRequirements
deriving DecidableEq, Repr

/-- The exported network state read by the checker: all nodes from the
node manager and all connections from the connection manager. -/
structure NetworkState where
  nodes : List SimulatorNode
  connections : List Connection
deriving DecidableEq, Repr

/-- JS truthiness of the optional messages field: undefined and 0 are
falsy. -/
def optTruthy : Option Nat → Bool
  | none => false
  | some m => m != 0

/-- The nodeCounts table of checkLabCompletion: occurrences of each node
type in the current network, default 0. -/
def initialCounts (nodes : List SimulatorNode) : SimulationNodeType → Nat :=
  fun t => (nodes.map (·.nodeType)).count t

/-- The in-place decrement nodeCounts[reqNodeType]-- of the counts
table at one key. -/
def decAt (counts : SimulationNodeType → Nat) (t : SimulationNodeType) :
    SimulationNodeType → Nat :=
  fun u => if u = t then counts t - 1 else counts u

/-- The nodesExist loop of checkLabCompletion: each required node type is
looked up in the (mutable) counts table; a positive count is decremented
and the item passes, a zero count fails the whole check (every
short-circuits on the first failure). -/
def nodesExistAux (counts : SimulationNodeType → Nat) :
    List SimulationNodeType → Bool
  | [] => true
  | t :: rest =>
      if counts t ≠ 0 then nodesExistAux (decAt counts t) rest
      else false

/-- The node-requirement check against a topology node list. -/
def nodesExistCheck (nodes : List SimulatorNode)
    (reqNodes : List SimulationNodeType) : Bool :=
  nodesExistAux (initialCounts nodes) reqNodes

/-- One required pair against one connection: endpoint types match the
pair in either orientation; an absent to endpoint matches nothing (the TS
optional chaining yields undefined). -/
def connMatchesPair (source target : SimulationNodeType) (c : Connection) : Bool :=
  (c.metaData.fromNode.nodeType == source &&
    (match c.metaData.toNode with
     | some t => t.nodeType == target
     | none => false)) ||
  ((match c.metaData.toNode with
    | some t => t.nodeType == source
    | none => false) && c.metaData.fromNode.nodeType == target)

/-- The connectionsExist check of checkLabCompletion: every required pair
must be matched by some existing connection; each pair is checked
independently against the full connection list. -/
def connectionsExistCheck (conns : List Connection)
    (reqPairs : List (SimulationNodeType × SimulationNodeType)) : Bool :=
  reqPairs.all (fun p => conns.any (connMatchesPair p.1 p.2))

/-- The messagesSent check of checkLabCompletion: vacuously true when no
(truthy) minimum is required, otherwise the live counter must reach the
minimum. -/
def messagesSentCheck (messages : Option Nat) (counter : Nat) : Bool :=
  !optTruthy messages || decide (messages.getD 0 ≤ counter)

/-- The checker outcome: the returned boolean, the progress pair passed
to updateLabProgress, and whether the missing-network error was logged. -/
structure LabCheckResult where
  satisfied : Bool
  fulfilled : Nat
  total : Nat
  errorLogged : Bool
deriving DecidableEq, Repr

/-- Core of checkLabCompletion once the lab and network are in hand: the
three category checks, the total/fulfilled progress arithmetic, and the
final conjunction. -/
def checkCompletion (reqs : LabRequirements) (net : NetworkState)
    (counter : Nat) : LabCheckResult :=
  let nodesExist := nodesExistCheck net.nodes reqs.nodes
  let connectionsExist := connectionsExistCheck net.connections reqs.connections
  let messagesSent := messagesSentCheck reqs.messages counter
  let totalRequirements := reqs.nodes.length + reqs.connections.length +
    (if optTruthy reqs.messages then 1 else 0)
  let fulfilledRequirements :=
    (if nodesExist then reqs.nodes.length else 0) +
    (if connectionsExist then reqs.connections.length else 0) +
    (if optTruthy reqs.messages && messagesSent then 1 else 0)
  { satisfied := nodesExist && connectionsExist && messagesSent,
    fulfilled := fulfilledRequirements,
    total := totalRequirements,
    errorLogged := false }

/-- checkLabCompletion of the lab panel: look the lab up by id (an
unknown id returns false at once), bail out with a logged error when the
exported network state is absent, otherwise run the requirement checks. -/
def checkLabCompletion (labs : List Lab) (labId : String)
    (currentNetwork : Option NetworkState) (counter : Nat) : LabCheckResult :=
  match labs.find? (fun l => l.id == labId) with
  | none => { satisfied := false, fulfilled := 0, total := 0, errorLogged := false }
  | some lab =>
      match currentNetwork with
      | none => { satisfied := false, fulfilled := 0, total := 0, errorLogged := true }
      | some net => checkCompletion lab.requirements net counter

/-- The claim-level reading of the node requirement: for each node type,
the requirement multiset asks for no more nodes of that type than the
topology has. -/
def NodesMatched (reqNodes : List SimulationNodeType)
    (nodes : List SimulatorNode) : Prop :=
  ∀ t, reqNodes.count t ≤ (nodes.map (·.nodeType)).count t

/-- The claim-level reading of one required pair: some existing
connection has endpoint types matching the pair in either orientation. -/
def PairMatched (source target : SimulationNodeType) (c : Connection) : Prop :=
  (c.metaData.fromNode.nodeType = source ∧
    (c.metaData.toNode.map (·.nodeType)) = some target) ∨
  ((c.metaData.toNode.map (·.nodeType)) = some source ∧
    c.metaData.fromNode.nodeType = target)

/-- The claim-level reading of the connection requirement: every required
pair is matched by some existing connection. -/
def PairsMatched (reqPairs : List (SimulationNodeType × SimulationNodeType))
    (conns : List Connection) : Prop :=
  ∀ p ∈ reqPairs, ∃ c ∈ conns, PairMatched p.1 p.2 c

/-- The claim-level reading of the message requirement: when a minimum is
required, the live counter reaches it. -/
def MessagesOk (messages : Option Nat) (counter : Nat) : Prop :=
  optTruthy messages = true → messages.getD 0 ≤ counter

/-- Degree of a node: the number of neighbors the engine sees. -/
def degree (node : SimulatorNode) (conns : List Connection) : Nat :=
  (getNeighbors node conns).length

/-- The neighbor type list the engine classifies. -/
def neighborTypes (node : SimulatorNode) (conns : List Connection) :
    List SimulationNodeType :=
  (getNeighbors node conns).map (·.nodeType)

/-- Claim-level neighbor classification: some neighbor is a Classical
Host or Classical Router. -/
def HasClassicalNeighbor (node : SimulatorNode) (conns : List Connection) : Prop :=
  ∃ t ∈ neighborTypes node conns, t = CLASSICAL_HOST ∨ t = CLASSICAL_ROUTER

/-- Claim-level neighbor classification: some neighbor is a Quantum
Host. -/
def HasQuantumHostNeighbor (node : SimulatorNode) (conns : List Connection) : Prop :=
  QUANTUM_HOST ∈ neighborTypes node conns

/-- Claim-level neighbor classification: some neighbor is a Quantum
Adapter. -/
def HasAdapterNeighbor (node : SimulatorNode) (conns : List Connection) : Prop :=
  QUANTUM_ADAPTER ∈ neighborTypes node conns

/-- Claim-level neighbor classification: some neighbor is a Quantum Host
or Quantum Repeater. -/
def HasQuantumLinkNeighbor (node : SimulatorNode) (conns : List Connection) : Prop :=
  ∃ t ∈ neighborTypes node conns, t = QUANTUM_HOST ∨ t = QUANTUM_REPEATER

instance (node : SimulatorNode) (conns : List Connection) :
    Decidable (HasClassicalNeighbor node conns) := by
  unfold HasClassicalNeighbor
  infer_instance

instance (node : SimulatorNode) (conns : List Connection) :
    Decidable (HasQuantumHostNeighbor node conns) := by
  unfold HasQuantumHostNeighbor
  infer_instance

instance (node : SimulatorNode) (conns : List Connection) :
    Decidable (HasAdapterNeighbor node conns) := by
  unfold HasAdapterNeighbor
  infer_instance

instance (node : SimulatorNode) (conns : List Connection) :
    Decidable (HasQuantumLinkNeighbor node conns) := by
  unfold HasQuantumLinkNeighbor
  infer_instance

instance (reqNodes : List SimulationNodeType) (nodes : List SimulatorNode) :
    Decidable (NodesMatched reqNodes nodes) := by
  unfold NodesMatched
  infer_instance

instance (source target : SimulationNodeType) (c : Connection) :
    Decidable (PairMatched source target c) := by
  unfold PairMatched
  infer_instance

instance (reqPairs : List (SimulationNodeType × SimulationNodeType))
    (conns : List Connection) : Decidable (PairsMatched reqPairs conns) := by
  unfold PairsMatched
  infer_instance

instance (messages : Option Nat) (counter : Nat) :
    Decidable (MessagesOk messages counter) := by
  unfold MessagesOk
  infer_instance

theorem any_isClassicalType_iff (ts : List SimulationNodeType) :
    ts.any isClassicalType = true ↔
      ∃ t ∈ ts, t = CLASSICAL_HOST ∨ t = CLASSICAL_ROUTER := by
  simp [List.any_eq_true, isClassicalType]

theorem any_isQuantumLinkType_iff (ts : List SimulationNodeType) :
    ts.any isQuantumLinkType = true ↔
      ∃ t ∈ ts, t = QUANTUM_HOST ∨ t = QUANTUM_REPEATER := by
  simp [List.any_eq_true, isQuantumLinkType]

theorem contains_iff_mem (ts : List SimulationNodeType) (x : SimulationNodeType) :
    ts.contains x = true ↔ x ∈ ts := by
  simp [List.contains_iff_exists_mem_beq]

theorem count_cons_split (t u : SimulationNodeType)
    (rest : List SimulationNodeType) :
    List.count u (t :: rest) = List.count u rest + (if u = t then 1 else 0) := by
  rw [List.count_cons]
  by_cases hu : u = t
  · subst hu
    simp
  · have hne : (t == u) = false := by
      simp [beq_eq_false_iff_ne]
      exact fun he => hu he.symm
    rw [hne, if_neg hu]
    simp

theorem nodesExistAux_eq_true_iff (counts : SimulationNodeType → Nat)
    (rs : List SimulationNodeType) :
    nodesExistAux counts rs = true ↔ ∀ t, rs.count t ≤ counts t := by
  induction rs generalizing counts with
  | nil => simp [nodesExistAux]
  | cons t rest ih =>
      simp only [nodesExistAux]
      by_cases h : counts t = 0
      · rw [if_neg (fun hc => hc h)]
        simp only [Bool.false_eq_true, false_iff, not_forall]
        refine ⟨t, ?_⟩
        rw [count_cons_split t t rest, if_pos rfl]
        omega
      · rw [if_pos h, ih]
        constructor
        · intro hall u
          have h1 := hall u
          simp only [decAt] at h1
          rw [count_cons_split t u rest]
          by_cases hu : u = t
          · rw [if_pos hu] at h1 ⊢
            subst hu
            omega
          · rw [if_neg hu] at h1 ⊢
            omega
        · intro hall u
          have h1 := hall u
          rw [count_cons_split t u rest] at h1
          simp only [decAt]
          by_cases hu : u = t
          · rw [if_pos hu] at h1 ⊢
            subst hu
            omega
          · rw [if_neg hu] at h1 ⊢
            omega

theorem nodesExistCheck_eq_true_iff (nodes : List SimulatorNode)
    (rs : List SimulationNodeType) :
    nodesExistCheck nodes rs = true ↔ NodesMatched rs nodes := by
  unfold nodesExistCheck NodesMatched initialCounts
  exact nodesExistAux_eq_true_iff _ _

theorem connMatchesPair_eq_true_iff (A B : SimulationNodeType) (c : Connection) :
    connMatchesPair A B c = true ↔ PairMatched A B c := by
  unfold connMatchesPair PairMatched
  cases c.metaData.toNode with
  | none => simp
  | some t => simp [Option.map]

theorem connectionsExistCheck_eq_true_iff (conns : List Connection)
    (reqPairs : List (SimulationNodeType × SimulationNodeType)) :
    connectionsExistCheck conns reqPairs = true ↔ PairsMatched reqPairs conns := by
  unfold connectionsExistCheck PairsMatched
  simp [List.all_eq_true, List.any_eq_true, connMatchesPair_eq_true_iff]

theorem messagesSentCheck_eq_true_iff (messages : Option Nat) (counter : Nat) :
    messagesSentCheck messages counter = true ↔ MessagesOk messages counter := by
  unfold messagesSentCheck MessagesOk
  cases messages with
  | none => simp [optTruthy]
  | some k =>
      by_cases hk : k = 0
      · simp [optTruthy, hk]
      · simp [optTruthy, hk]

theorem getCompatibleNextNodeTypes_adapter (node : SimulatorNode)
    (conns : List Connection) (h : node.nodeType = QUANTUM_ADAPTER) :
    getCompatibleNextNodeTypes node conns =
      if degree node conns ≥ 2 then []
      else
        if (neighborTypes node conns).any isClassicalType &&
            !((neighborTypes node conns).contains QUANTUM_HOST) then
          [QUANTUM_HOST]
        else if (neighborTypes node conns).contains QUANTUM_HOST &&
            !((neighborTypes node conns).any isClassicalType) then
          [CLASSICAL_HOST, CLASSICAL_ROUTER]
        else [CLASSICAL_HOST, CLASSICAL_ROUTER, QUANTUM_HOST] := by
  simp only [getCompatibleNextNodeTypes, h, degree, neighborTypes]

theorem getCompatibleNextNodeTypes_qhost (node : SimulatorNode)
    (conns : List Connection) (h : node.nodeType = QUANTUM_HOST) :
    getCompatibleNextNodeTypes node conns =
      if degree node conns ≥ 2 then []
      else
        if (neighborTypes node conns).contains QUANTUM_ADAPTER &&
            !((neighborTypes node conns).any isQuantumLinkType) then
          [QUANTUM_HOST, QUANTUM_REPEATER]
        else if (neighborTypes node conns).any isQuantumLinkType &&
            !((neighborTypes node conns).contains QUANTUM_ADAPTER) then
          [QUANTUM_ADAPTER]
        else [QUANTUM_ADAPTER, QUANTUM_HOST, QUANTUM_REPEATER] := by
  simp only [getCompatibleNextNodeTypes, h, degree, neighborTypes]

theorem getCompatibleNextNodeTypes_repeater (node : SimulatorNode)
    (conns : List Connection) (h : node.nodeType = QUANTUM_REPEATER) :
    getCompatibleNextNodeTypes node conns =
      if degree node conns ≥ 2 then []
      else [QUANTUM_HOST, QUANTUM_REPEATER] := by
  simp only [getCompatibleNextNodeTypes, h, degree, neighborTypes]

/-- C1: for every Quantum Adapter node with degree < 2, a classical
neighbor with no Quantum Host neighbor yields exactly [Quantum Host]; a
Quantum Host neighbor with no classical neighbor yields exactly
[Classical Host, Classical Router]; otherwise the full
[Classical Host, Classical Router, Quantum Host] is offered. With
degree >= 2 the result is empty. -/
theorem adapter_next_types_correct (node : SimulatorNode) (conns : List Connection)
    (h : node.nodeType = QUANTUM_ADAPTER) :
    (degree node conns < 2 →
      ((HasClassicalNeighbor node conns ∧ ¬HasQuantumHostNeighbor node conns →
          getCompatibleNextNodeTypes node conns = [QUANTUM_HOST]) ∧
        (HasQuantumHostNeighbor node conns ∧ ¬HasClassicalNeighbor node conns →
          getCompatibleNextNodeTypes node conns = [CLASSICAL_HOST, CLASSICAL_ROUTER]) ∧
        (¬(HasClassicalNeighbor node conns ∧ ¬HasQuantumHostNeighbor node conns) ∧
          ¬(HasQuantumHostNeighbor node conns ∧ ¬HasClassicalNeighbor node conns) →
          getCompatibleNextNodeTypes node conns =
            [CLASSICAL_HOST, CLASSICAL_ROUTER, QUANTUM_HOST]))) ∧
    (2 ≤ degree node conns → getCompatibleNextNodeTypes node conns = []) := by
  rw [getCompatibleNextNodeTypes_adapter node conns h]
  refine ⟨fun hd => ⟨?_, ?_, ?_⟩, fun hd => if_pos hd⟩
  · rintro ⟨hcl, hnq⟩
    have hb1 : (neighborTypes node conns).any isClassicalType = true :=
      (any_isClassicalType_iff _).mpr hcl
    have hb2 : (neighborTypes node conns).contains QUANTUM_HOST = false := by
      rw [Bool.eq_false_iff]
      intro hc
      exact hnq ((contains_iff_mem _ _).mp hc)
    rw [if_neg (by omega), hb1, hb2]
    simp
  · rintro ⟨hq, hncl⟩
    have hb1 : (neighborTypes node conns).any isClassicalType = false := by
      rw [Bool.eq_false_iff]
      intro hc
      exact hncl ((any_isClassicalType_iff _).mp hc)
    have hb2 : (neighborTypes node conns).contains QUANTUM_HOST = true :=
      (contains_iff_mem _ _).mpr hq
    rw [if_neg (by omega), hb1, hb2]
    simp
  · rintro ⟨hn1, hn2⟩
    rw [if_neg (by omega)]
    cases ha : (neighborTypes node conns).any isClassicalType <;>
      cases hb : (neighborTypes node conns).contains QUANTUM_HOST
    · simp
    · exact absurd ⟨(contains_iff_mem _ _).mp hb,
        fun hc => by rw [(any_isClassicalType_iff _).mpr hc] at ha; cases ha⟩ hn2
    · exact absurd ⟨(any_isClassicalType_iff _).mp ha,
        fun hq => by rw [(contains_iff_mem _ _).mpr hq] at hb; cases hb⟩ hn1
    · simp

/-- C1 witness: an adapter with one Classical Host neighbor is offered
exactly a Quantum Host. -/
theorem adapter_next_types_correct_witness :
    getCompatibleNextNodeTypes ⟨0, QUANTUM_ADAPTER⟩
      [⟨⟨⟨0, QUANTUM_ADAPTER⟩, some ⟨1, CLASSICAL_HOST⟩⟩⟩] = [QUANTUM_HOST] :=
  ((adapter_next_types_correct ⟨0, QUANTUM_ADAPTER⟩
      [⟨⟨⟨0, QUANTUM_ADAPTER⟩, some ⟨1, CLASSICAL_HOST⟩⟩⟩] rfl).1 (by decide)).1
    ⟨by decide, by decide⟩

/-- C2 counterexample: a Classical Host, one of the five governed types,
sitting at degree 2 is still offered the full classical list, not the
empty list, so the degree-2 rule does not hold for all governed types. -/
theorem degree_two_empty_counterexample :
    (⟨0, CLASSICAL_HOST⟩ : SimulatorNode).nodeType = CLASSICAL_HOST ∧
    degree ⟨0, CLASSICAL_HOST⟩
      [⟨⟨⟨0, CLASSICAL_HOST⟩, some ⟨1, CLASSICAL_HOST⟩⟩⟩,
       ⟨⟨⟨0, CLASSICAL_HOST⟩, some ⟨2, CLASSICAL_HOST⟩⟩⟩] = 2 ∧
    getCompatibleNextNodeTypes ⟨0, CLASSICAL_HOST⟩
      [⟨⟨⟨0, CLASSICAL_HOST⟩, some ⟨1, CLASSICAL_HOST⟩⟩⟩,
       ⟨⟨⟨0, CLASSICAL_HOST⟩, some ⟨2, CLASSICAL_HOST⟩⟩⟩] ≠ [] := by
  refine ⟨rfl, rfl, ?_⟩
  decide

/-- C2 (amended): for the three degree-limited governed types (Quantum
Adapter, Quantum Host, Quantum Repeater) a node at degree 2 is offered
the empty list, regardless of neighbor types; Classical Host and
Classical Router carry no degree limit. -/
theorem quantum_degree_two_empty (node : SimulatorNode) (conns : List Connection)
    (h : node.nodeType = QUANTUM_ADAPTER ∨ node.nodeType = QUANTUM_HOST ∨
      node.nodeType = QUANTUM_REPEATER)
    (hd : degree node conns = 2) :
    getCompatibleNextNodeTypes node conns = [] := by
  rcases h with h | h | h
  · rw [getCompatibleNextNodeTypes_adapter node conns h, if_pos (by omega)]
  · rw [getCompatibleNextNodeTypes_qhost node conns h, if_pos (by omega)]
  · rw [getCompatibleNextNodeTypes_repeater node conns h, if_pos (by omega)]

/-- C2 witness: a Quantum Host with two neighbors is offered nothing. -/
theorem quantum_degree_two_empty_witness :
    getCompatibleNextNodeTypes ⟨0, QUANTUM_HOST⟩
      [⟨⟨⟨0, QUANTUM_HOST⟩, some ⟨1, QUANTUM_ADAPTER⟩⟩⟩,
       ⟨⟨⟨0, QUANTUM_HOST⟩, some ⟨2, QUANTUM_HOST⟩⟩⟩] = [] :=
  quantum_degree_two_empty ⟨0, QUANTUM_HOST⟩
    [⟨⟨⟨0, QUANTUM_HOST⟩, some ⟨1, QUANTUM_ADAPTER⟩⟩⟩,
     ⟨⟨⟨0, QUANTUM_HOST⟩, some ⟨2, QUANTUM_HOST⟩⟩⟩]
    (Or.inr (Or.inl rfl)) (by decide)

/-- C3: a Classical Host or Classical Router is always offered exactly
[Classical Host, Classical Router, Quantum Adapter], for every degree
and neighbor combination. -/
theorem classical_next_types_correct (node : SimulatorNode) (conns : List Connection)
    (h : node.nodeType = CLASSICAL_HOST ∨ node.nodeType = CLASSICAL_ROUTER) :
    getCompatibleNextNodeTypes node conns =
      [CLASSICAL_HOST, CLASSICAL_ROUTER, QUANTUM_ADAPTER] := by
  rcases h with h | h <;> simp [getCompatibleNextNodeTypes, h]

/-- C3 witness: a lone Classical Host gets the full classical offering. -/
theorem classical_next_types_correct_witness :
    getCompatibleNextNodeTypes ⟨0, CLASSICAL_HOST⟩ [] =
      [CLASSICAL_HOST, CLASSICAL_ROUTER, QUANTUM_ADAPTER] :=
  classical_next_types_correct ⟨0, CLASSICAL_HOST⟩ [] (Or.inl rfl)

/-- C4: for every Quantum Host node with degree < 2, an Adapter neighbor
with no quantum-link neighbor yields exactly
[Quantum Host, Quantum Repeater]; a quantum-link neighbor with no
Adapter neighbor yields exactly [Quantum Adapter]; otherwise the full
[Quantum Adapter, Quantum Host, Quantum Repeater] is offered. With
degree >= 2 the result is empty. -/
theorem qhost_next_types_correct (node : SimulatorNode) (conns : List Connection)
    (h : node.nodeType = QUANTUM_HOST) :
    (degree node conns < 2 →
      ((HasAdapterNeighbor node conns ∧ ¬HasQuantumLinkNeighbor node conns →
          getCompatibleNextNodeTypes node conns = [QUANTUM_HOST, QUANTUM_REPEATER]) ∧
        (HasQuantumLinkNeighbor node conns ∧ ¬HasAdapterNeighbor node conns →
          getCompatibleNextNodeTypes node conns = [QUANTUM_ADAPTER]) ∧
        (¬(HasAdapterNeighbor node conns ∧ ¬HasQuantumLinkNeighbor node conns) ∧
          ¬(HasQuantumLinkNeighbor node conns ∧ ¬HasAdapterNeighbor node conns) →
          getCompatibleNextNodeTypes node conns =
            [QUANTUM_ADAPTER, QUANTUM_HOST, QUANTUM_REPEATER]))) ∧
    (2 ≤ degree node conns → getCompatibleNextNodeTypes node conns = []) := by
  rw [getCompatibleNextNodeTypes_qhost node conns h]
  refine ⟨fun hd => ⟨?_, ?_, ?_⟩, fun hd => if_pos hd⟩
  · rintro ⟨had, hnl⟩
    have hb1 : (neighborTypes node conns).contains QUANTUM_ADAPTER = true :=
      (contains_iff_mem _ _).mpr had
    have hb2 : (neighborTypes node conns).any isQuantumLinkType = false := by
      rw [Bool.eq_false_iff]
      intro hc
      exact hnl ((any_isQuantumLinkType_iff _).mp hc)
    rw [if_neg (by omega), hb1, hb2]
    simp
  · rintro ⟨hl, hnad⟩
    have hb1 : (neighborTypes node conns).contains QUANTUM_ADAPTER = false := by
      rw [Bool.eq_false_iff]
      intro hc
      exact hnad ((contains_iff_mem _ _).mp hc)
    have hb2 : (neighborTypes node conns).any isQuantumLinkType = true :=
      (any_isQuantumLinkType_iff _).mpr hl
    rw [if_neg (by omega), hb1, hb2]
    simp
  · rintro ⟨hn1, hn2⟩
    rw [if_neg (by omega)]
    cases ha : (neighborTypes node conns).contains QUANTUM_ADAPTER <;>
      cases hb : (neighborTypes node conns).any isQuantumLinkType
    · simp
    · exact absurd ⟨(any_isQuantumLinkType_iff _).mp hb,
        fun hc => by rw [(contains_iff_mem _ _).mpr hc] at ha; cases ha⟩ hn2
    · exact absurd ⟨(contains_iff_mem _ _).mp ha,
        fun hl => by rw [(any_isQuantumLinkType_iff _).mpr hl] at hb; cases hb⟩ hn1
    · simp

/-- C4 witness: a Quantum Host whose only neighbor is an Adapter is
offered exactly a Quantum Host and a Quantum Repeater. -/
theorem qhost_next_types_correct_witness :
    getCompatibleNextNodeTypes ⟨0, QUANTUM_HOST⟩
      [⟨⟨⟨1, QUANTUM_ADAPTER⟩, some ⟨0, QUANTUM_HOST⟩⟩⟩] =
      [QUANTUM_HOST, QUANTUM_REPEATER] :=
  ((qhost_next_types_correct ⟨0, QUANTUM_HOST⟩
      [⟨⟨⟨1, QUANTUM_ADAPTER⟩, some ⟨0, QUANTUM_HOST⟩⟩⟩] rfl).1 (by decide)).1
    ⟨by decide, by decide⟩

theorem checkCompletion_satisfied (reqs : LabRequirements) (net : NetworkState)
    (counter : Nat) :
    (checkCompletion reqs net counter).satisfied =
      (nodesExistCheck net.nodes reqs.nodes &&
        connectionsExistCheck net.connections reqs.connections &&
        messagesSentCheck reqs.messages counter) := rfl

theorem checkCompletion_total (reqs : LabRequirements) (net : NetworkState)
    (counter : Nat) :
    (checkCompletion reqs net counter).total =
      reqs.nodes.length + reqs.connections.length +
        (if optTruthy reqs.messages then 1 else 0) := rfl

theorem checkCompletion_fulfilled (reqs : LabRequirements) (net : NetworkState)
    (counter : Nat) :
    (checkCompletion reqs net counter).fulfilled =
      (if nodesExistCheck net.nodes reqs.nodes then reqs.nodes.length else 0) +
      (if connectionsExistCheck net.connections reqs.connections then
        reqs.connections.length else 0) +
      (if optTruthy reqs.messages && messagesSentCheck reqs.messages counter then
        1 else 0) := rfl

/-- C5: in the lab checker a required pair is satisfied exactly when
some existing connection matches it in either orientation, each pair
checked independently against the full connection list; hence one
matching connection satisfies a requirement repeating the same pair any
number of times. -/
theorem connection_pairs_no_depletion (conns : List Connection)
    (reqPairs : List (SimulationNodeType × SimulationNodeType))
    (A B : SimulationNodeType) (n : Nat) :
    (connectionsExistCheck conns reqPairs = true ↔ PairsMatched reqPairs conns) ∧
    ((∃ c ∈ conns, PairMatched A B c) →
      connectionsExistCheck conns (List.replicate n (A, B)) = true) := by
  refine ⟨connectionsExistCheck_eq_true_iff conns reqPairs, fun hex => ?_⟩
  rw [connectionsExistCheck_eq_true_iff]
  intro p hp
  have hpe := List.eq_of_mem_replicate hp
  subst hpe
  exact hex

/-- C5 witness: a single Classical Host to Classical Router connection
satisfies the same required pair stated three times over. -/
theorem connection_pairs_no_depletion_witness :
    connectionsExistCheck [⟨⟨⟨0, CLASSICAL_HOST⟩, some ⟨1, CLASSICAL_ROUTER⟩⟩⟩]
      (List.replicate 3 (CLASSICAL_HOST, CLASSICAL_ROUTER)) = true :=
  (connection_pairs_no_depletion [⟨⟨⟨0, CLASSICAL_HOST⟩, some ⟨1, CLASSICAL_ROUTER⟩⟩⟩]
      [] CLASSICAL_HOST CLASSICAL_ROUTER 3).2 (by decide)

/-- C6: the node-requirement outcome is a pure multiset test: it holds
exactly when, for each node type, the requirement multiset asks for no
more nodes of that type than the topology has; hence permuting the
requirement list never changes the outcome. -/
theorem node_requirements_multiset_test (nodes : List SimulatorNode)
    (rs rs' : List SimulationNodeType) (hperm : rs.Perm rs') :
    (nodesExistCheck nodes rs = true ↔ NodesMatched rs nodes) ∧
    nodesExistCheck nodes rs = nodesExistCheck nodes rs' := by
  refine ⟨nodesExistCheck_eq_true_iff nodes rs, ?_⟩
  have h1 := nodesExistCheck_eq_true_iff nodes rs
  have h2 := nodesExistCheck_eq_true_iff nodes rs'
  have hiff : NodesMatched rs nodes ↔ NodesMatched rs' nodes := by
    unfold NodesMatched
    constructor <;> intro hall t
    · rw [← hperm.count_eq t]
      exact hall t
    · rw [hperm.count_eq t]
      exact hall t
  by_cases hN : NodesMatched rs nodes
  · rw [h1.mpr hN, h2.mpr (hiff.mp hN)]
  · have e1 : nodesExistCheck nodes rs = false := by
      cases hb : nodesExistCheck nodes rs
      · rfl
      · exact absurd (h1.mp hb) hN
    have e2 : nodesExistCheck nodes rs' = false := by
      cases hb : nodesExistCheck nodes rs'
      · rfl
      · exact absurd (hiff.mpr (h2.mp hb)) hN
    rw [e1, e2]

/-- C6 witness: against two Classical Hosts and one Quantum Host, the
requirement [Classical Host, Quantum Host] passes and agrees with its
permutation [Quantum Host, Classical Host]. -/
theorem node_requirements_multiset_test_witness :
    (nodesExistCheck [⟨0, CLASSICAL_HOST⟩, ⟨1, CLASSICAL_HOST⟩, ⟨2, QUANTUM_HOST⟩]
        [CLASSICAL_HOST, QUANTUM_HOST] = true ↔
      NodesMatched [CLASSICAL_HOST, QUANTUM_HOST]
        [⟨0, CLASSICAL_HOST⟩, ⟨1, CLASSICAL_HOST⟩, ⟨2, QUANTUM_HOST⟩]) ∧
    nodesExistCheck [⟨0, CLASSICAL_HOST⟩, ⟨1, CLASSICAL_HOST⟩, ⟨2, QUANTUM_HOST⟩]
        [CLASSICAL_HOST, QUANTUM_HOST] =
      nodesExistCheck [⟨0, CLASSICAL_HOST⟩, ⟨1, CLASSICAL_HOST⟩, ⟨2, QUANTUM_HOST⟩]
        [QUANTUM_HOST, CLASSICAL_HOST] :=
  node_requirements_multiset_test
    [⟨0, CLASSICAL_HOST⟩, ⟨1, CLASSICAL_HOST⟩, ⟨2, QUANTUM_HOST⟩]
    [CLASSICAL_HOST, QUANTUM_HOST] [QUANTUM_HOST, CLASSICAL_HOST] (by decide)

/-- C7: the checker reports total as the node item count plus the
connection pair count plus one when a messages minimum is required, and
fulfilled as the all-or-nothing sum of the three categories. -/
theorem progress_counts_all_or_nothing (reqs : LabRequirements)
    (net : NetworkState) (counter : Nat) :
    (checkCompletion reqs net counter).total =
      reqs.nodes.length + reqs.connections.length +
        (if optTruthy reqs.messages then 1 else 0) ∧
    (checkCompletion reqs net counter).fulfilled =
      (if NodesMatched reqs.nodes net.nodes then reqs.nodes.length else 0) +
      (if PairsMatched reqs.connections net.connections then
        reqs.connections.length else 0) +
      (if optTruthy reqs.messages = true ∧ MessagesOk reqs.messages counter then
        1 else 0) := by
  refine ⟨checkCompletion_total reqs net counter, ?_⟩
  rw [checkCompletion_fulfilled reqs net counter]
  have e3 : ((optTruthy reqs.messages &&
      messagesSentCheck reqs.messages counter) = true) ↔
      (optTruthy reqs.messages = true ∧ MessagesOk reqs.messages counter) := by
    rw [Bool.and_eq_true, messagesSentCheck_eq_true_iff]
  rw [if_congr (nodesExistCheck_eq_true_iff net.nodes reqs.nodes) rfl rfl,
    if_congr (connectionsExistCheck_eq_true_iff net.connections reqs.connections)
      rfl rfl,
    if_congr e3 rfl rfl]

/-- C8: the checker's boolean result holds exactly when all node items
are matched, all required pairs are matched, and any required messages
minimum is reached by the live counter. -/
theorem satisfied_iff_all_categories (reqs : LabRequirements)
    (net : NetworkState) (counter : Nat) :
    (checkCompletion reqs net counter).satisfied = true ↔
      NodesMatched reqs.nodes net.nodes ∧
      PairsMatched reqs.connections net.connections ∧
      MessagesOk reqs.messages counter := by
  rw [checkCompletion_satisfied, Bool.and_eq_true, Bool.and_eq_true,
    nodesExistCheck_eq_true_iff, connectionsExistCheck_eq_true_iff,
    messagesSentCheck_eq_true_iff, and_assoc]

/-- C9: for every lab id that names a lab, an absent exported network
state makes the checker return not-satisfied and record the logged
error; the function is total, so the missing-topology case cannot
throw. -/
theorem missing_network_fails_and_logs (labs : List Lab) (labId : String)
    (counter : Nat) (lab : Lab)
    (h : labs.find? (fun l => l.id == labId) = some lab) :
    (checkLabCompletion labs labId none counter).satisfied = false ∧
    (checkLabCompletion labs labId none counter).errorLogged = true := by
  unfold checkLabCompletion
  rw [h]
  exact ⟨rfl, rfl⟩

/-- C9 witness: a one-lab list with a missing network yields false plus
the logged error. -/
theorem missing_network_fails_and_logs_witness :
    (checkLabCompletion [⟨"lab1", ⟨[], [], none⟩⟩] "lab1" none 0).satisfied =
      false ∧
    (checkLabCompletion [⟨"lab1", ⟨[], [], none⟩⟩] "lab1" none 0).errorLogged =
      true :=
  missing_network_fails_and_logs [⟨"lab1", ⟨[], [], none⟩⟩] "lab1" 0
    ⟨"lab1", ⟨[], [], none⟩⟩ (by rfl)

theorem all_or_nothing_arith (b1 b2 b3 bt : Bool) (N C : Nat)
    (h1 : b1 = false → 0 < N) (h2 : b2 = false → 0 < C)
    (h3 : bt = false → b3 = true) :
    ((if b1 then N else 0) + (if b2 then C else 0) +
        (if bt && b3 then 1 else 0) ≤ N + C + (if bt then 1 else 0)) ∧
    ((b1 && b2 && b3) = true ↔
      (if b1 then N else 0) + (if b2 then C else 0) +
          (if bt && b3 then 1 else 0) = N + C + (if bt then 1 else 0)) := by
  cases b1 <;> cases b2 <;> cases b3 <;> cases bt <;> simp_all <;> omega

theorem nodesExistCheck_false_length (nodes : List SimulatorNode)
    (rs : List SimulationNodeType) (h : nodesExistCheck nodes rs = false) :
    0 < rs.length := by
  cases he : rs with
  | nil =>
      rw [he] at h
      simp [nodesExistCheck, nodesExistAux] at h
  | cons a l => simp

theorem connectionsExistCheck_false_length (conns : List Connection)
    (reqPairs : List (SimulationNodeType × SimulationNodeType))
    (h : connectionsExistCheck conns reqPairs = false) :
    0 < reqPairs.length := by
  cases he : reqPairs with
  | nil =>
      rw [he] at h
      simp [connectionsExistCheck] at h
  | cons a l => simp

theorem messagesSentCheck_of_not_truthy (messages : Option Nat) (counter : Nat)
    (h : optTruthy messages = false) :
    messagesSentCheck messages counter = true := by
  unfold messagesSentCheck
  rw [h]
  rfl

/-- C10: the fulfilled count never exceeds the total count, and the
checker's boolean result holds exactly when fulfilled equals total, so
the progress fraction reads complete exactly when the lab is judged
complete. -/
theorem fulfilled_le_total_iff_satisfied (reqs : LabRequirements)
    (net : NetworkState) (counter : Nat) :
    (checkCompletion reqs net counter).fulfilled ≤
      (checkCompletion reqs net counter).total ∧
    ((checkCompletion reqs net counter).satisfied = true ↔
      (checkCompletion reqs net counter).fulfilled =
        (checkCompletion reqs net counter).total) := by
  rw [checkCompletion_satisfied, checkCompletion_fulfilled, checkCompletion_total]
  exact all_or_nothing_arith
    (nodesExistCheck net.nodes reqs.nodes)
    (connectionsExistCheck net.connections reqs.connections)
    (messagesSentCheck reqs.messages counter)
    (optTruthy reqs.messages)
    reqs.nodes.length reqs.connections.length
    (nodesExistCheck_false_length net.nodes reqs.nodes)
    (connectionsExistCheck_false_length net.connections reqs.connections)
    (messagesSentCheck_of_not_truthy reqs.messages counter)

end QSim
